import Mathlib

/-!
Verification of the connector-selection CLI helpers
(airbyte-ci/connectors/pipelines/pipelines/airbyte_ci/cdk_java/commands.py)
and of the Amazon Ads Sponsored Products stream definitions
(airbyte-integrations/connectors/source-amazon-ads/source_amazon_ads/streams/sponsored_products.py)
as a shallow embedding in Lean 4.

Part 1 embeds the connector registry record, the modified-file resolver,
the criteria intersection of get_selected_connectors_with_modified_files,
and the should_use_remote_secrets decision table.  Part 2 embeds a small
JSON value type, HTTP responses, the parse_response status dispatch,
next_page_token, and the two request_body_json builders.
-/

namespace Spec2Proof

/-! ## Part 1: connector selection (cdk_java/commands.py) -/

/-- A connector registry record, as exposed by the external registry
(connector_ops.utils): technical name, path, support level, language,
metadata document and changelog entry files.  The free-text metadata
query evaluation is an external collaborator and is passed to the
selection function as a predicate argument. -/
structure Connector where
  technical_name : String
  relative_connector_path : String
  support_level : String
  language : String
  changelog_entry_files : List String
deriving DecidableEq, Repr

/-- Modelled from the spec: a changed file path falls under a connector
when it is prefixed by (is under) the connector relative path (section
4.2, Modified-File Resolver). -/
def file_is_under (path file : String) : Bool :=
  file.startsWith path

/-- Modelled from the spec: get_modified_connectors (the helper
pipelines.helpers.connectors.modifed, not part of the sources shown) with
dependency scanning disabled — a connector matches if any changed file
path is under the connector relative path (section 4.2). -/
def get_modified_connectors (modified_files : List String) (all_connectors : List Connector) :
    List Connector :=
  all_connectors.filter (fun c => modified_files.any (fun f => file_is_under c.relative_connector_path f))

/-- Modelled from the spec: get_connector_modified_files (same missing
helper module) — the subset of the global modified-file set that falls
under the connector path (section 3, Selected-connector result). -/
def get_connector_modified_files (c : Connector) (modified_files : List String) : List String :=
  modified_files.filter (fun f => file_is_under c.relative_connector_path f)

/-- A selected connector paired with its own subset of the modified
files (pipelines.helpers.connectors.modifed.ConnectorWithModifiedFiles). -/
structure ConnectorWithModifiedFiles where
  relative_connector_path : String
  modified_files : List String
deriving DecidableEq, Repr

/-- Modelled from the spec: the has-metadata-change derived flag — the
connector set of changed files includes its metadata file, taken to be
the file metadata.yaml directly under the connector path. -/
def ConnectorWithModifiedFiles.has_metadata_change (c : ConnectorWithModifiedFiles) : Bool :=
  c.modified_files.contains (c.relative_connector_path ++ "metadata.yaml")

/-- The six candidate subsets built by
get_selected_connectors_with_modified_files, in source order: by name,
by support level, by language, by metadata query, modified, by changelog
entry files.  Unsupplied criteria produce the empty set, exactly as the
Python conditional expressions do. -/
def candidate_connector_sets
    (all_connectors : List Connector) (qmatch : Connector → String → Bool)
    (selected_names selected_support_levels selected_languages : List String)
    (modified : Bool) (with_changelog_entry_files : Bool)
    (metadata_query : String) (modified_files : List String) :
    List (List Connector) :=
  let selected_modified_connectors :=
    if modified then get_modified_connectors modified_files all_connectors else []
  let selected_connectors_by_name :=
    all_connectors.filter (fun c => selected_names.contains c.technical_name)
  let selected_connectors_by_support_level :=
    all_connectors.filter (fun c => selected_support_levels.contains c.support_level)
  let selected_connectors_by_language :=
    all_connectors.filter (fun c => selected_languages.contains c.language)
  let selected_connectors_by_query :=
    if !metadata_query.isEmpty then all_connectors.filter (fun c => qmatch c metadata_query) else []
  let selected_connectors_by_changelog_entry_files :=
    if with_changelog_entry_files then
      all_connectors.filter (fun c => !c.changelog_entry_files.isEmpty)
    else []
  [selected_connectors_by_name,
   selected_connectors_by_support_level,
   selected_connectors_by_language,
   selected_connectors_by_query,
   selected_modified_connectors,
   selected_connectors_by_changelog_entry_files]

/-- The list comprehension dropping the empty candidate subsets. -/
def non_empty_connector_sets
    (all_connectors : List Connector) (qmatch : Connector → String → Bool)
    (selected_names selected_support_levels selected_languages : List String)
    (modified : Bool) (with_changelog_entry_files : Bool)
    (metadata_query : String) (modified_files : List String) :
    List (List Connector) :=
  (candidate_connector_sets all_connectors qmatch selected_names selected_support_levels
    selected_languages modified with_changelog_entry_files metadata_query
    modified_files).filter (fun s => !s.isEmpty)

/-- Finitary set intersection, as set.intersection over the non-empty
list of sets; the empty family gives the empty set, mirroring the
Python fallback. -/
def set_intersection {α : Type} [DecidableEq α] : List (List α) → List α
  | [] => []
  | s :: rest => rest.foldl (fun acc t => acc.filter (fun c => decide (c ∈ t))) s

/-- The connectors selected before the metadata-changes-only
post-filter: the intersection of the non-empty candidate subsets. -/
def selected_connectors
    (all_connectors : List Connector) (qmatch : Connector → String → Bool)
    (selected_names selected_support_levels selected_languages : List String)
    (modified : Bool) (with_changelog_entry_files : Bool)
    (metadata_query : String) (modified_files : List String) :
    List Connector :=
  set_intersection (non_empty_connector_sets all_connectors qmatch selected_names
    selected_support_levels selected_languages modified with_changelog_entry_files
    metadata_query modified_files)

/-- The selection entry point get_selected_connectors_with_modified_files:
force the modified flag when metadata_changes_only is set, intersect the
non-empty criteria subsets, pair every selected connector with its own
modified files, and post-filter on has_metadata_change when
metadata_changes_only is set. -/
def get_selected_connectors_with_modified_files
    (all_connectors : List Connector) (qmatch : Connector → String → Bool)
    (selected_names selected_support_levels selected_languages : List String)
    (modified : Bool) (metadata_changes_only : Bool) (with_changelog_entry_files : Bool)
    (metadata_query : String) (modified_files : List String) :
    List ConnectorWithModifiedFiles :=
  let modified := if metadata_changes_only && !modified then true else modified
  let sel := selected_connectors all_connectors qmatch selected_names
    selected_support_levels selected_languages modified with_changelog_entry_files
    metadata_query modified_files
  let results := sel.map (fun c =>
    ConnectorWithModifiedFiles.mk c.relative_connector_path
      (get_connector_modified_files c modified_files))
  if !metadata_changes_only then results
  else results.filter (fun cw => cw.has_metadata_change)

/-- A user-facing fatal CLI error (click.UsageError). -/
inductive CliError where
  | usageError (message : String)
deriving DecidableEq, Repr

/-- The should_use_remote_secrets decision table; the presence of the
GCP_GSM_CREDENTIALS environment variable (the truthiness of os.getenv)
is the Boolean argument gcp_gsm_credentials_is_set. -/
def should_use_remote_secrets (use_remote_secrets : Option Bool)
    (gcp_gsm_credentials_is_set : Bool) : Except CliError Bool :=
  match use_remote_secrets with
  | none =>
    if gcp_gsm_credentials_is_set then .ok true else .ok false
  | some u =>
    if u then
      if gcp_gsm_credentials_is_set then .ok true
      else .error (.usageError
        "The --use-remote-secrets flag was provided but no GCP_GSM_CREDENTIALS environment variable was found.")
    else .ok false

/-! ## Part 2: Sponsored Products streams (sponsored_products.py) -/

/-- A JSON value, the shape of request and response bodies. -/
inductive Json where
  | null
  | bool (b : Bool)
  | num (n : Int)
  | str (s : String)
  | arr (elems : List Json)
  | obj (fields : List (String × Json))

/-- Python truthiness of a parsed JSON value: None, False, 0, empty
string, empty array and empty object are falsy. -/
def Json.truthy : Json → Bool
  | .null => false
  | .bool b => b
  | .num n => n != 0
  | .str s => !s.isEmpty
  | .arr elems => !elems.isEmpty
  | .obj fields => !fields.isEmpty

/-- Field lookup on a JSON object; none when the key is absent or the
value is not an object. -/
def Json.lookupField : Json → String → Option Json
  | .obj fields, key => fields.lookup key
  | _, _ => none

/-- Python dict.get with default None: a missing field reads as JSON
null, as does an explicit null value once parsed. -/
def dict_get (j : Json) (key : String) : Json :=
  (j.lookupField key).getD .null

/-- An error escaping a stream method: a JSON decode failure of the
response body, an HTTP error raised by raise_for_status, or a missing
dictionary key (Python KeyError on subscript). -/
inductive StreamError where
  | jsonDecodeError
  | httpError (status : Nat)
  | keyError (key : String)
deriving DecidableEq, Repr

/-- Python dictionary subscript: the value at the key, or a KeyError. -/
def Json.index (j : Json) (key : String) : Except StreamError Json :=
  match j.lookupField key with
  | some v => .ok v
  | none => .error (.keyError key)

/-- An HTTP response: its status code and its body, where none stands
for a body that is not valid JSON (response.json() raises). -/
structure Response where
  status_code : Nat
  body : Option Json

/-- Parsing of the response body, as response.json(): the parsed value,
or a decode error when the body is not valid JSON. -/
def Response.json (r : Response) : Except StreamError Json :=
  match r.body with
  | some j => .ok j
  | none => .error .jsonDecodeError

/-- Truthiness of a requests Response object: its bool conversion is
Response.ok, true exactly when the status code is below 400. -/
def Response.truthy (r : Response) : Bool :=
  r.status_code < 400

/-- Models requests.Response.raise_for_status: raises HTTPError exactly
on the client and server error statuses 400 to 599. -/
def raise_for_status (status : Nat) : Except StreamError Unit :=
  if 400 ≤ status ∧ status < 600 then .error (.httpError status) else .ok ()

/-- SponsoredProductAdGroupWithSlicesABC.parse_response: decode the body
first, yield it on 200, swallow 400, 422 and 404 with a warning, and
defer every other status to raise_for_status.  The records the
generator yields are returned as a list; an exception is the error
branch. -/
def SponsoredProductAdGroupWithSlicesABC.parse_response (response : Response) :
    Except StreamError (List Json) :=
  match response.json with
  | .error e => .error e
  | .ok resp =>
    let yielded := if response.status_code = 200 then [resp] else []
    if response.status_code = 400 then .ok yielded
    else if response.status_code = 422 then .ok yielded
    else if response.status_code = 404 then .ok yielded
    else
      match raise_for_status response.status_code with
      | .ok _ => .ok yielded
      | .error e => .error e

/-- SponsoredProductsV3.next_page_token: None for an absent or falsy
response, otherwise the nextToken field of the parsed body with default
None. -/
def SponsoredProductsV3.next_page_token (response : Option Response) :
    Except StreamError Json :=
  match response with
  | none => .ok .null
  | some r =>
    if !r.truthy then .ok .null
    else
      match r.json with
      | .ok body => .ok (dict_get body "nextToken")
      | .error e => .error e

/-- Modelled from the spec: the pagination loop of the upstream
framework base class (not part of the sources shown) — request pages in
order and terminate as soon as the response carries no (truthy)
continuation token.  The argument lists the responses the server would
return; the result lists the pages actually fetched. -/
def read_pages : List Response → Except StreamError (List Response)
  | [] => .ok []
  | r :: rest =>
    match SponsoredProductsV3.next_page_token (some r) with
    | .error e => .error e
    | .ok tok =>
      if tok.truthy then
        match read_pages rest with
        | .ok pages => .ok (r :: pages)
        | .error e => .error e
      else .ok [r]

/-- SponsoredProductsV3.request_body_json: optional stateFilter (the
state_filter config value, included when truthy), then maxResults (the
page size) and nextToken (the continuation token, possibly None).  The
body is an insertion-ordered dictionary, an association list here. -/
def SponsoredProductsV3.request_body_json (state_filter : Json) (page_size : Nat)
    (stream_state : Json) (stream_slice : Json) (next_page_token : Json) :
    List (String × Json) :=
  let request_body : List (String × Json) := []
  let request_body :=
    if state_filter.truthy then
      request_body ++ [("stateFilter", Json.obj [("include", state_filter)])]
    else request_body
  request_body ++ [("maxResults", Json.num page_size), ("nextToken", next_page_token)]

/-- SponsoredProductAdGroupBidRecommendations.request_body_json: a fixed
targetingExpressions entry, the adGroupId and campaignId subscripts of
the stream slice, and a fixed recommendationType; a missing slice key is
a KeyError. -/
def SponsoredProductAdGroupBidRecommendations.request_body_json
    (state_filter : Json) (page_size : Nat)
    (stream_state : Json) (stream_slice : Json) (next_page_token : Json) :
    Except StreamError (List (String × Json)) :=
  match stream_slice.index "adGroupId" with
  | .error e => .error e
  | .ok adGroupId =>
    match stream_slice.index "campaignId" with
    | .error e => .error e
    | .ok campaignId =>
      .ok [("targetingExpressions",
              Json.arr [Json.obj [("type", Json.str "KEYWORD_BROAD_MATCH"),
                                  ("value", Json.str "hello")]]),
           ("adGroupId", adGroupId),
           ("campaignId", campaignId),
           ("recommendationType", Json.str "BIDS_FOR_EXISTING_AD_GROUP")]

/-! ## Sample data for concrete evaluations -/

/-- A sample certified registry record. -/
def sourceFaker : Connector :=
  ⟨"source-faker", "airbyte-integrations/connectors/source-faker/", "certified", "python", []⟩

/-- A sample community registry record. -/
def sourcePokeapi : Connector :=
  ⟨"source-pokeapi", "airbyte-integrations/connectors/source-pokeapi/", "community", "python", []⟩

/-- A sample registry of two connectors. -/
def sampleRegistry : List Connector := [sourceFaker, sourcePokeapi]

/-! ## Theorems: connector selection -/

lemma mem_set_intersection_cons {α : Type} [DecidableEq α] (s : List α)
    (rest : List (List α)) (a : α) :
    a ∈ set_intersection (s :: rest) ↔ a ∈ s ∧ ∀ t ∈ rest, a ∈ t := by
  show a ∈ rest.foldl (fun acc t => acc.filter (fun c => decide (c ∈ t))) s ↔ _
  induction rest generalizing s with
  | nil => simp
  | cons t rest ih =>
    rw [List.foldl_cons, ih]
    simp only [List.mem_filter, decide_eq_true_eq, List.mem_cons]
    constructor
    · rintro ⟨⟨hs, ht⟩, hrest⟩
      exact ⟨hs, by rintro u (rfl | hu); exact ht; exact hrest u hu⟩
    · rintro ⟨hs, hall⟩
      exact ⟨⟨hs, hall t (Or.inl rfl)⟩, fun u hu => hall u (Or.inr hu)⟩

/-- C1: before the metadata-changes-only post-filter, the selected
connectors are exactly the set-intersection of the non-empty candidate
subsets built per supplied criterion; when every candidate subset is
empty the result is empty, and when exactly one subset is non-empty the
result is exactly that subset. -/
theorem selection_is_intersection_of_supplied_criteria
    (all_connectors : List Connector) (qmatch : Connector → String → Bool)
    (names levels langs : List String) (modified wclef : Bool)
    (query : String) (files : List String) :
    (∀ c : Connector,
      c ∈ selected_connectors all_connectors qmatch names levels langs modified wclef query files ↔
        (non_empty_connector_sets all_connectors qmatch names levels langs modified wclef
            query files ≠ [] ∧
          ∀ s ∈ non_empty_connector_sets all_connectors qmatch names levels langs modified wclef
              query files, c ∈ s))
    ∧ (non_empty_connector_sets all_connectors qmatch names levels langs modified wclef
          query files = [] →
        selected_connectors all_connectors qmatch names levels langs modified wclef query files = [])
    ∧ (∀ s, non_empty_connector_sets all_connectors qmatch names levels langs modified wclef
          query files = [s] →
        selected_connectors all_connectors qmatch names levels langs modified wclef query files = s) := by
  refine ⟨?_, ?_, ?_⟩
  · intro c
    unfold selected_connectors
    cases h : non_empty_connector_sets all_connectors qmatch names levels langs modified wclef
        query files with
    | nil => simp [set_intersection]
    | cons s rest =>
      rw [mem_set_intersection_cons]
      simp only [ne_eq, reduceCtorEq, not_false_iff, true_and, List.mem_cons]
      constructor
      · rintro ⟨hs, hrest⟩ u (rfl | hu)
        · exact hs
        · exact hrest u hu
      · intro hall
        exact ⟨hall s (Or.inl rfl), fun u hu => hall u (Or.inr hu)⟩
  · intro h
    unfold selected_connectors
    rw [h]
    rfl
  · intro s h
    unfold selected_connectors
    rw [h]
    rfl

/-- Witness for C1: with only the name criterion supplied, the
selection is exactly the name subset. -/
theorem selection_is_intersection_witness :
    selected_connectors sampleRegistry (fun _ _ => false) ["source-faker"] [] [] false false
        "" [] = [sourceFaker] :=
  (selection_is_intersection_of_supplied_criteria sampleRegistry (fun _ _ => false)
    ["source-faker"] [] [] false false "" []).2.2 [sourceFaker] (by decide)

/-- C3: the should_use_remote_secrets decision table — an unset flag
defers to credential presence, an explicit true requires credentials or
raises a usage error, an explicit false always yields local mode. -/
theorem should_use_remote_secrets_decision_table :
    ∀ credentials_set : Bool,
      should_use_remote_secrets none credentials_set = .ok credentials_set
      ∧ should_use_remote_secrets (some true) true = .ok true
      ∧ (∃ msg, should_use_remote_secrets (some true) false = .error (.usageError msg))
      ∧ should_use_remote_secrets (some false) credentials_set = .ok false := by
  intro credentials_set
  refine ⟨?_, rfl, ⟨_, rfl⟩, rfl⟩
  cases credentials_set <;> rfl

/-- C4: with metadata_changes_only set, the selection result does not
depend on the incoming modified flag — the flag is forced on. -/
theorem metadata_changes_only_forces_modified
    (all_connectors : List Connector) (qmatch : Connector → String → Bool)
    (names levels langs : List String) (wclef : Bool)
    (query : String) (files : List String) :
    get_selected_connectors_with_modified_files all_connectors qmatch names levels langs
        false true wclef query files =
      get_selected_connectors_with_modified_files all_connectors qmatch names levels langs
        true true wclef query files := rfl

/-- C5: with metadata_changes_only set, the result is exactly the
criteria intersection (with modified forced on) restricted to the
connectors whose own modified files contain their metadata file, each
paired with its files; without it, every connector of the intersection
is returned, paired with the subset of the modified files under its
path. -/
theorem metadata_changes_only_postfilter
    (all_connectors : List Connector) (qmatch : Connector → String → Bool)
    (names levels langs : List String) (modified wclef : Bool)
    (query : String) (files : List String) :
    (get_selected_connectors_with_modified_files all_connectors qmatch names levels langs
        modified true wclef query files =
      ((selected_connectors all_connectors qmatch names levels langs true wclef query
          files).filter (fun c =>
            (get_connector_modified_files c files).contains
              (c.relative_connector_path ++ "metadata.yaml"))).map
        (fun c => ConnectorWithModifiedFiles.mk c.relative_connector_path
          (get_connector_modified_files c files)))
    ∧ (get_selected_connectors_with_modified_files all_connectors qmatch names levels langs
        modified false wclef query files =
      (selected_connectors all_connectors qmatch names levels langs modified wclef query
          files).map
        (fun c => ConnectorWithModifiedFiles.mk c.relative_connector_path
          (get_connector_modified_files c files))) := by
  constructor
  · have hmod : (if true && !modified then true else modified) = true := by
      cases modified <;> rfl
    unfold get_selected_connectors_with_modified_files
    rw [hmod]
    simp only [Bool.not_true, Bool.false_eq_true, if_false, List.filter_map]
    rfl
  · rfl

/-! ## Theorems: Sponsored Products streams -/

/-- Body of a first mock page, carrying a continuation token. -/
def bodyPage1 : Json :=
  Json.obj [("adGroups", Json.arr [Json.str "g1"]), ("nextToken", Json.str "A")]

/-- Body of a second mock page, whose nextToken is null. -/
def bodyPage2 : Json :=
  Json.obj [("adGroups", Json.arr [Json.str "g2"]), ("nextToken", Json.null)]

/-- First mock response. -/
def page1 : Response := ⟨200, some bodyPage1⟩

/-- Second mock response, carrying no continuation token. -/
def page2 : Response := ⟨200, some bodyPage2⟩

/-- A third mock response that pagination must never request. -/
def pageExtra : Response := ⟨200, some (Json.obj [("adGroups", Json.arr [])])⟩

/-- C2 (amended): for every response whose body is valid JSON, status
200 yields exactly the parsed body; 400, 404 and 422 yield zero records
and no exception; any other status in 400..599 yields zero records and
raises. -/
theorem parse_response_status_policy (status : Nat) (body : Json) :
    (status = 200 →
      SponsoredProductAdGroupWithSlicesABC.parse_response ⟨status, some body⟩ = .ok [body])
    ∧ ((status = 400 ∨ status = 404 ∨ status = 422) →
      SponsoredProductAdGroupWithSlicesABC.parse_response ⟨status, some body⟩ = .ok [])
    ∧ (400 ≤ status → status ≤ 599 → status ≠ 400 → status ≠ 404 → status ≠ 422 →
      SponsoredProductAdGroupWithSlicesABC.parse_response ⟨status, some body⟩ =
        .error (.httpError status)) := by
  refine ⟨?_, ?_, ?_⟩
  · rintro rfl
    rfl
  · rintro (rfl | rfl | rfl) <;> rfl
  · intro h1 h2 h3 h4 h5
    have h200 : ¬ status = 200 := by omega
    have hraise : 400 ≤ status ∧ status < 600 := ⟨h1, by omega⟩
    simp [SponsoredProductAdGroupWithSlicesABC.parse_response, Response.json,
      raise_for_status, h200, h3, h4, h5, hraise]

/-- Witness for C2: concrete evaluations at statuses 200, 404 and 500
with a valid JSON body. -/
theorem parse_response_status_policy_witness :
    SponsoredProductAdGroupWithSlicesABC.parse_response ⟨200, some (Json.obj [])⟩ =
        .ok [Json.obj []]
    ∧ SponsoredProductAdGroupWithSlicesABC.parse_response ⟨404, some (Json.obj [])⟩ = .ok []
    ∧ SponsoredProductAdGroupWithSlicesABC.parse_response ⟨500, some (Json.obj [])⟩ =
        .error (.httpError 500) :=
  ⟨(parse_response_status_policy 200 (Json.obj [])).1 rfl,
   (parse_response_status_policy 404 (Json.obj [])).2.1 (Or.inr (Or.inl rfl)),
   (parse_response_status_policy 500 (Json.obj [])).2.2 (by omega) (by omega)
     (by omega) (by omega) (by omega)⟩

/-- Counterexample for C2 as stated: a 301 response is not 2xx yet
yields zero records without raising, and a 400 response with an
undecodable body raises instead of being skipped. -/
theorem parse_response_counterexample :
    SponsoredProductAdGroupWithSlicesABC.parse_response ⟨301, some (Json.obj [])⟩ = .ok []
    ∧ SponsoredProductAdGroupWithSlicesABC.parse_response ⟨400, none⟩ =
        .error .jsonDecodeError :=
  ⟨rfl, rfl⟩

/-- C8: the body is decoded before the status dispatch, so a response
whose body is not valid JSON raises a decode error and yields no
records at every status, the skip statuses 400, 404 and 422 included. -/
theorem parse_response_decodes_body_first (status : Nat) :
    SponsoredProductAdGroupWithSlicesABC.parse_response ⟨status, none⟩ =
      .error .jsonDecodeError := rfl

/-- C6: next_page_token is the nextToken field of the parsed body, None
when the response is absent or falsy or the field is missing; on the
mock sequence whose second response has a null token, pagination
fetches exactly the first two pages. -/
theorem next_page_token_terminates_pagination :
    (∀ (r : Response) (body : Json), r.body = some body → r.truthy = true →
      SponsoredProductsV3.next_page_token (some r) = .ok (dict_get body "nextToken"))
    ∧ SponsoredProductsV3.next_page_token none = .ok .null
    ∧ (∀ (r : Response) (body : Json), r.body = some body → r.truthy = true →
        body.lookupField "nextToken" = none →
        SponsoredProductsV3.next_page_token (some r) = .ok .null)
    ∧ (∀ r : Response, r.truthy = false →
        SponsoredProductsV3.next_page_token (some r) = .ok .null)
    ∧ read_pages [page1, page2, pageExtra] = .ok [page1, page2] := by
  refine ⟨?_, rfl, ?_, ?_, ?_⟩
  · intro r body hb ht
    simp [SponsoredProductsV3.next_page_token, ht, Response.json, hb]
  · intro r body hb ht hfield
    simp [SponsoredProductsV3.next_page_token, ht, Response.json, hb, dict_get, hfield]
  · intro r ht
    simp [SponsoredProductsV3.next_page_token, ht]
  · rfl

/-- Witness for C6: the first mock page carries the continuation token
A. -/
theorem next_page_token_witness :
    SponsoredProductsV3.next_page_token (some page1) = .ok (Json.str "A") :=
  (next_page_token_terminates_pagination.1 page1 bodyPage1 rfl rfl).trans rfl

lemma request_body_json_lookup (state_filter : Json) (page_size : Nat)
    (stream_state stream_slice next_page_token : Json) :
    ((SponsoredProductsV3.request_body_json state_filter page_size stream_state stream_slice
        next_page_token).lookup "maxResults" = some (Json.num page_size))
    ∧ ((SponsoredProductsV3.request_body_json state_filter page_size stream_state stream_slice
        next_page_token).lookup "nextToken" = some next_page_token)
    ∧ ((SponsoredProductsV3.request_body_json state_filter page_size stream_state stream_slice
        next_page_token).lookup "stateFilter" =
      if state_filter.truthy then some (Json.obj [("include", state_filter)]) else none) := by
  rcases Bool.eq_false_or_eq_true state_filter.truthy with h | h <;>
    simp [SponsoredProductsV3.request_body_json, h, List.lookup]

/-- C7 (amended): every stream using the shared
SponsoredProductsV3.request_body_json builds a body with maxResults,
nextToken, and stateFilter exactly when a state filter is configured;
the bid-recommendations stream overrides the body and is exempt. -/
theorem base_request_body_fields (state_filter : Json) (page_size : Nat)
    (stream_state stream_slice next_page_token : Json) :
    ((SponsoredProductsV3.request_body_json state_filter page_size stream_state stream_slice
        next_page_token).lookup "maxResults" = some (Json.num page_size))
    ∧ ((SponsoredProductsV3.request_body_json state_filter page_size stream_state stream_slice
        next_page_token).lookup "nextToken" = some next_page_token)
    ∧ ((SponsoredProductsV3.request_body_json state_filter page_size stream_state stream_slice
        next_page_token).lookup "stateFilter" ≠ none ↔ state_filter.truthy = true) := by
  obtain ⟨h1, h2, h3⟩ := request_body_json_lookup state_filter page_size stream_state
    stream_slice next_page_token
  refine ⟨h1, h2, ?_⟩
  rw [h3]
  rcases Bool.eq_false_or_eq_true state_filter.truthy with h | h <;> simp [h]

/-- A sample stream slice, one ad group record. -/
def sampleSlice : Json :=
  Json.obj [("adGroupId", Json.str "123"), ("campaignId", Json.str "456")]

/-- The body the bid-recommendations stream builds for sampleSlice. -/
def sampleBidRecBody : List (String × Json) :=
  [("targetingExpressions",
      Json.arr [Json.obj [("type", Json.str "KEYWORD_BROAD_MATCH"),
                          ("value", Json.str "hello")]]),
   ("adGroupId", Json.str "123"),
   ("campaignId", Json.str "456"),
   ("recommendationType", Json.str "BIDS_FOR_EXISTING_AD_GROUP")]

/-- Counterexample for C7 as stated: the bid-recommendations resource
stream builds a request body with no maxResults, no nextToken, and no
stateFilter even though a state filter is configured and a continuation
token is at hand. -/
theorem bidrec_body_counterexample :
    SponsoredProductAdGroupBidRecommendations.request_body_json (Json.str "enabled") 100
        Json.null sampleSlice (Json.str "tok") = .ok sampleBidRecBody
    ∧ sampleBidRecBody.lookup "maxResults" = none
    ∧ sampleBidRecBody.lookup "nextToken" = none
    ∧ sampleBidRecBody.lookup "stateFilter" = none :=
  ⟨rfl, rfl, rfl, rfl⟩

/-- C9: on the first page the continuation token is None and the body
still carries the nextToken key, mapped to null; maxResults is present
for every token. -/
theorem first_page_body_keeps_nextToken (state_filter : Json) (page_size : Nat)
    (stream_state stream_slice : Json) :
    ((SponsoredProductsV3.request_body_json state_filter page_size stream_state stream_slice
        Json.null).lookup "nextToken" = some Json.null)
    ∧ (∀ tok : Json,
      (SponsoredProductsV3.request_body_json state_filter page_size stream_state stream_slice
          tok).lookup "maxResults" = some (Json.num page_size)) :=
  ⟨(request_body_json_lookup state_filter page_size stream_state stream_slice Json.null).2.1,
   fun tok => (request_body_json_lookup state_filter page_size stream_state stream_slice tok).1⟩

/-- C10: the bid-recommendations request body is a function of the
slice adGroupId and campaignId alone — state, token, state filter and
page size never influence it — and it always carries the fixed
targetingExpressions and recommendationType entries and never
maxResults, nextToken or stateFilter. -/
theorem bidrec_body_function_of_slice_ids
    (sf sf2 : Json) (ps ps2 : Nat) (st st2 sl sl2 tok tok2 : Json)
    (h1 : sl.lookupField "adGroupId" = sl2.lookupField "adGroupId")
    (h2 : sl.lookupField "campaignId" = sl2.lookupField "campaignId") :
    SponsoredProductAdGroupBidRecommendations.request_body_json sf ps st sl tok =
      SponsoredProductAdGroupBidRecommendations.request_body_json sf2 ps2 st2 sl2 tok2
    ∧ (∀ body,
      SponsoredProductAdGroupBidRecommendations.request_body_json sf ps st sl tok = .ok body →
        body.lookup "maxResults" = none
        ∧ body.lookup "nextToken" = none
        ∧ body.lookup "stateFilter" = none
        ∧ body.lookup "targetingExpressions" =
            some (Json.arr [Json.obj [("type", Json.str "KEYWORD_BROAD_MATCH"),
                                      ("value", Json.str "hello")]])
        ∧ body.lookup "recommendationType" = some (Json.str "BIDS_FOR_EXISTING_AD_GROUP")) := by
  unfold SponsoredProductAdGroupBidRecommendations.request_body_json Json.index
  rw [h1, h2]
  refine ⟨rfl, ?_⟩
  intro body hbody
  cases hA : sl2.lookupField "adGroupId" with
  | none => rw [hA] at hbody; exact absurd hbody (by simp)
  | some a =>
    rw [hA] at hbody
    cases hC : sl2.lookupField "campaignId" with
    | none => rw [hC] at hbody; exact absurd hbody (by simp)
    | some c =>
      rw [hC] at hbody
      simp only [Except.ok.injEq] at hbody
      subst hbody
      exact ⟨rfl, rfl, rfl, rfl, rfl⟩

/-- A slice with the same identifiers as sampleSlice and an extra
field. -/
def sampleSliceExtra : Json :=
  Json.obj [("adGroupId", Json.str "123"), ("campaignId", Json.str "456"),
            ("state", Json.str "ENABLED")]

/-- Witness for C10: two calls differing in every argument except the
slice identifiers build the same body. -/
theorem bidrec_body_function_of_slice_ids_witness :
    SponsoredProductAdGroupBidRecommendations.request_body_json (Json.str "enabled") 5
        (Json.obj [("cursor", Json.str "x")]) sampleSliceExtra (Json.str "tok") =
      SponsoredProductAdGroupBidRecommendations.request_body_json Json.null 100 Json.null
        sampleSlice Json.null :=
  (bidrec_body_function_of_slice_ids (Json.str "enabled") Json.null 5 100
    (Json.obj [("cursor", Json.str "x")]) Json.null sampleSliceExtra sampleSlice
    (Json.str "tok") Json.null rfl rfl).1

end Spec2Proof
